import Mathlib

/-!
Shallow embedding of `src/yt_eda/visualization.py` (classes
`PreprocessVisualizer` and `PostprocessVisualizer`), together with proofs
about the embedded operations.

Modelling conventions:
* A pandas `DataFrame` is a list of named, dtyped columns of cell values.
  Cell values are exact (`Int`/`Rat`/`String`); pandas floats are modelled
  by rationals, and a float result that pandas would render as `NaN`
  (e.g. a correlation involving a zero-variance column) is modelled as
  `none : Option _`.
* Plotting calls (`plt`/`sns`) are modelled by a `Render` datatype that
  records exactly the data and styling the source passes to the library;
  "rendering a chart" means returning such a value.
* Library errors (pandas `KeyError`, seaborn/matplotlib value errors) are
  modelled with `Except PdError`; the source installs no handlers, so every
  embedded method simply propagates them.
* `self.data` mutation is modelled by having every method return the
  component state it leaves behind alongside its output.
* The `RandomForestRegressor` trainer is external to the repository; it is
  modelled as an explicit parameter `fitImp` mapping the constructor
  argument `n_estimators`, the feature matrix and the target vector to the
  fitted model's `feature_importances_` vector.
-/

/-- A pandas dtype, restricted to the dtypes the source mentions
(`'int64'`, `'float64'`, `'object'`). -/
inductive Dtype where
  | int64 : Dtype
  | float64 : Dtype
  | object : Dtype
deriving DecidableEq, Repr

/-- A single cell value of a column. -/
inductive Value where
  | vint : Int → Value
  | vfloat : Rat → Value
  | vstr : String → Value
deriving DecidableEq, Repr

/-- A named dataframe column. -/
structure Column where
  name : String
  dtype : Dtype
  values : List Value
deriving DecidableEq, Repr

/-- A pandas `DataFrame`: a sequence of named columns. -/
structure DataFrame where
  cols : List Column
deriving DecidableEq, Repr

namespace DataFrame

/-- `df.columns`. -/
def names (df : DataFrame) : List String :=
  df.cols.map Column.name

/-- `len(df)`: the common length of the columns (0 for a column-free frame). -/
def nrows (df : DataFrame) : Nat :=
  match df.cols with
  | [] => 0
  | c :: _ => c.values.length

/-- Rectangularity: every column has `nrows` entries. -/
def Rect (df : DataFrame) : Prop :=
  ∀ c ∈ df.cols, c.values.length = df.nrows

instance (df : DataFrame) : Decidable df.Rect := by
  unfold Rect; infer_instance

/-- `df[n]`, column selection by name (first match, as pandas with unique
column labels). -/
def find? (df : DataFrame) (n : String) : Option Column :=
  df.cols.find? (fun c => c.name == n)

/-- `df.select_dtypes(include=incl).columns`-backing column list. -/
def select_dtypes (df : DataFrame) (incl : List Dtype) : List Column :=
  df.cols.filter (fun c => c.dtype ∈ incl)

/-- `df.drop(target, axis=1)` on the success path: every column not named
`target` (pandas raises `KeyError` when `target` is absent; callers check). -/
def dropCol (df : DataFrame) (target : String) : DataFrame :=
  ⟨df.cols.filter (fun c => c.name ≠ target)⟩

end DataFrame

/-- Numeric interpretation of a cell, used when pandas coerces a numeric
column to floats (string cells never occur in well-typed numeric columns). -/
def Value.toRat : Value → Rat
  | .vint z => (z : Rat)
  | .vfloat q => q
  | .vstr _ => 0

/-- The numeric vector of a column. -/
def Column.rats (c : Column) : List Rat :=
  c.values.map Value.toRat

/-- Errors propagated from pandas / seaborn / matplotlib. -/
inductive PdError where
  | keyError : String → PdError
  | valueError : String → PdError
  | typeError : String → PdError
deriving DecidableEq, Repr

/-- The pivot table produced by `groupby([a, b]).size().unstack()`:
row keys are values of `a`, column keys values of `b`, and a cell is the
group count (`none` models the `NaN` that `unstack` fills in for an absent
combination). -/
structure PivotTable where
  colKeys : List Value
  rows : List (Value × List (Option Nat))
deriving DecidableEq, Repr

/-- Total of all (non-`NaN`) counts in the pivot table. -/
def PivotTable.total (t : PivotTable) : Nat :=
  (t.rows.map (fun r => (r.2.map (fun o => o.getD 0)).sum)).sum

/-- A rendered chart: the data and styling that the source hands to
matplotlib / seaborn. -/
inductive Render where
  | histplot : (col : String) → (values : List Value) → (kde : Bool) →
      (title : String) → Render
  | countplot : (col : String) → (title : String) → (xtickRotation : Nat) → Render
  | groupedBar : (table : PivotTable) → (title : String) →
      (xtickRotation : Nat) → Render
  | heatmap : (matrix : List (String × List (String × Option ℝ))) →
      (annot : Bool) → (cmap : String) → (centered : Bool) →
      (title : String) → Render
  | barplot : (series : List (String × Option ℝ)) → (title : String) →
      (xtickRotation : Nat) → Render
  | scatterplot : (x : String) → (y : String) → (title : String) → Render
  | barh : (labels : List String) → (widths : List Rat) →
      (xlabel : String) → Render

/-! ### Statistics used by `.corr()`

Pandas computes the pairwise Pearson correlation.  The centred sums of
products are exact rationals; only the final `Sxy / sqrt(Sxx * Syy)` needs
real square roots.  A zero-variance operand makes pandas produce `NaN`,
modelled as `none`. -/

/-- Mean of a list of rationals (0 for the empty list, matching the
convention `0 / 0 = 0`; pandas never reaches this case with a nonempty
column). -/
def meanQ (xs : List Rat) : Rat :=
  xs.sum / (xs.length : Rat)

/-- Centred sum of products `Σ (xᵢ - x̄)(yᵢ - ȳ)`.  The `1/(n-1)`
normalisation of the sample covariance cancels in the correlation and is
omitted. -/
def sxy (xs ys : List Rat) : Rat :=
  (List.zipWith (fun x y => (x - meanQ xs) * (y - meanQ ys)) xs ys).sum

/-- Pearson correlation of two columns, `NaN` (`none`) when either
centred sum of squares vanishes. -/
noncomputable def corr (xs ys : List Rat) : Option ℝ :=
  if sxy xs xs = 0 ∨ sxy ys ys = 0 then none
  else some ((sxy xs ys : ℝ) / (Real.sqrt (sxy xs xs) * Real.sqrt (sxy ys ys)))

/-- The numeric columns `df.corr()` operates on. -/
def DataFrame.numericCols (df : DataFrame) : List Column :=
  df.select_dtypes [Dtype.int64, Dtype.float64]

/-- `df.corr()`: the pairwise Pearson correlation matrix over the numeric
columns, as a labelled list of labelled rows. -/
noncomputable def DataFrame.corrMatrix (df : DataFrame) :
    List (String × List (String × Option ℝ)) :=
  df.numericCols.map (fun ci =>
    (ci.name, df.numericCols.map (fun cj => (cj.name, corr ci.rats cj.rats))))

/-- Entry lookup in a labelled matrix (first matching row, then first
matching entry — how pandas label indexing behaves with unique labels). -/
def lookup₂ (m : List (String × List (String × Option ℝ))) (i j : String) :
    Option (Option ℝ) :=
  match m.find? (fun r => r.1 == i) with
  | none => none
  | some r =>
    match r.2.find? (fun e => e.1 == j) with
    | none => none
    | some e => some e.2

/-! ### groupby([a, b]).size().unstack() -/

/-- The list of row-wise key pairs for `groupby([a, b])` (the zip of the
two key columns). -/
def groupKeys (ca cb : Column) : List (Value × Value) :=
  List.zip ca.values cb.values

/-- `groupby([a, b]).size().unstack()`.  Row labels are the distinct
first-key values, column labels the distinct second-key values; a cell
holds the group size, or `none` (pandas `NaN`) when the combination never
occurs.  (Pandas additionally sorts the group labels; the order of labels
is irrelevant to every property proved here and is left as encountered.) -/
def unstackCounts (ca cb : Column) : PivotTable :=
  let keys := groupKeys ca cb
  let rks := (keys.map Prod.fst).dedup
  let cks := (keys.map Prod.snd).dedup
  { colKeys := cks
    rows := rks.map (fun r =>
      (r, cks.map (fun c =>
        if (r, c) ∈ keys then some (keys.count (r, c)) else none))) }

/-! ### The two visualizer classes -/

/-- `PreprocessVisualizer`: wraps the raw dataset given to `__init__`. -/
structure PreprocessVisualizer where
  data : DataFrame
deriving Repr

/-- `PostprocessVisualizer`: wraps the preprocessed dataset given to
`__init__`. -/
structure PostprocessVisualizer where
  data : DataFrame
deriving Repr

namespace PreprocessVisualizer

/-- `plot_numeric_distribution`: one `sns.histplot(..., kde=True)` per
`int64`/`float64` column, titled `"Distribution of {col}"`.  Returns the
state left in `self` and the rendered charts. -/
def plot_numeric_distribution (v : PreprocessVisualizer) :
    PreprocessVisualizer × List Render :=
  (v, (v.data.select_dtypes [Dtype.int64, Dtype.float64]).map (fun c =>
    Render.histplot c.name c.values true ("Distribution of " ++ c.name)))

/-- `plot_categorical_distribution`: one `sns.countplot` per `object`
column, titled `"Distribution of {col}"`, x-ticks rotated 45°. -/
def plot_categorical_distribution (v : PreprocessVisualizer) :
    PreprocessVisualizer × List Render :=
  (v, (v.data.select_dtypes [Dtype.object]).map (fun c =>
    Render.countplot c.name ("Distribution of " ++ c.name) 45))

/-- `plot_channel_category_counts`: group by the two named columns, count,
unstack, and bar-plot the table.  A missing column is pandas' `KeyError`;
an empty pivot is matplotlib's "no numeric data to plot" `TypeError`. -/
def plot_channel_category_counts (v : PreprocessVisualizer)
    (group_first group_second : String) :
    PreprocessVisualizer × Except PdError Render :=
  (v,
    match v.data.find? group_first, v.data.find? group_second with
    | none, _ => .error (.keyError group_first)
    | some _, none => .error (.keyError group_second)
    | some ca, some cb =>
      let grouped := unstackCounts ca cb
      if grouped.rows = [] then
        .error (.typeError "no numeric data to plot")
      else
        .ok (Render.groupedBar grouped
          ("Distribution of " ++ group_second ++ " by " ++ group_first) 45))

/-- `plot_heatmap`: `sns.heatmap(self.data.corr(), annot=True,
cmap="coolwarm", center=0)`, titled "Correlation Heatmap". -/
noncomputable def plot_heatmap (v : PreprocessVisualizer) :
    PreprocessVisualizer × Render :=
  (v, Render.heatmap v.data.corrMatrix true "coolwarm" true
    "Correlation Heatmap")

end PreprocessVisualizer

/-- `Series.sort_values(ascending=False)` on a correlation series: sorted
by value, largest first, `NaN` entries last (pandas
`na_position='last'`). -/
noncomputable def corrDescLe (a b : String × Option ℝ) : Bool :=
  match a.2, b.2 with
  | _, none => true
  | none, some _ => false
  | some x, some y => @decide (y ≤ x) (Classical.propDecidable _)

/-- `corr_series.sort_values(ascending=False)`. -/
noncomputable def sortValuesDesc (s : List (String × Option ℝ)) :
    List (String × Option ℝ) :=
  s.mergeSort corrDescLe

/-- `np.argsort` on a rational vector: the indices `0, …, n-1` reordered so
that the values they select are ascending. -/
def argsortAsc (xs : List Rat) : List Nat :=
  (List.range xs.length).mergeSort (fun i j => decide (xs.getD i 0 ≤ xs.getD j 0))

/-- `self.data.corr()[target]` on the success path: the column of the
correlation matrix labelled by the target column `tc`, as a series over
the numeric column names. -/
noncomputable def corrSeries (df : DataFrame) (tc : Column) :
    List (String × Option ℝ) :=
  df.numericCols.map (fun ci => (ci.name, corr ci.rats tc.rats))

namespace PostprocessVisualizer

/-- `plot_heatmap` (verbatim the same body as the preprocessing class):
`sns.heatmap(self.data.corr(), annot=True, cmap="coolwarm", center=0)`. -/
noncomputable def plot_heatmap (v : PostprocessVisualizer) :
    PostprocessVisualizer × Render :=
  (v, Render.heatmap v.data.corrMatrix true "coolwarm" true
    "Correlation Heatmap")

/-- `plot_correlation_analysis`: `self.data.corr()[target]` (pandas
`KeyError` when `target` is not a label of the correlation matrix, i.e.
not a numeric column), sorted descending, rendered with `sns.barplot`. -/
noncomputable def plot_correlation_analysis (v : PostprocessVisualizer)
    (target : String) : PostprocessVisualizer × Except PdError Render :=
  (v,
    match v.data.numericCols.find? (fun c => c.name == target) with
    | none => .error (.keyError target)
    | some tc =>
      .ok (Render.barplot (sortValuesDesc (corrSeries v.data tc))
        ("Correlation with " ++ target) 45))

/-- One `sns.scatterplot(data=df, x=feature, y=target)`: seaborn raises a
`ValueError` when a named variable is not a column of `data`. -/
def scatterOne (df : DataFrame) (feature target : String) :
    Except PdError Render :=
  match df.find? feature, df.find? target with
  | none, _ => .error (.valueError ("Could not interpret value " ++ feature))
  | some _, none => .error (.valueError ("Could not interpret value " ++ target))
  | some _, some _ =>
    .ok (Render.scatterplot feature target (feature ++ " vs. " ++ target))

/-- The `for feature in features` loop of `plot_scatterplots`: one scatter
per feature, aborted by the first uncaught seaborn exception. -/
def scatterLoop (df : DataFrame) (target : String) :
    List String → Except PdError (List Render)
  | [] => .ok []
  | f :: fs =>
    match scatterOne df f target with
    | .error e => .error e
    | .ok r =>
      match scatterLoop df target fs with
      | .error e => .error e
      | .ok rs => .ok (r :: rs)

/-- `plot_scatterplots`: loop over `[col for col in self.data.columns if
col != target]`, one scatter against the target each; the first failing
seaborn call aborts the loop (uncaught exception). -/
def plot_scatterplots (v : PostprocessVisualizer) (target : String) :
    PostprocessVisualizer × Except PdError (List Render) :=
  (v, scatterLoop v.data target (v.data.names.filter (fun c => c ≠ target)))

/-- `plot_feature_importance`: `X = self.data.drop(target, axis=1)`
(a new frame, `inplace` defaults to `False`), `y = self.data[target]`,
fit a fresh `RandomForestRegressor(n_estimators=100)` on all of `(X, y)`,
read `feature_importances_`, `argsort` them and draw
`plt.barh(X.columns[sorted_idx], importances[sorted_idx])`.
`fitImp` stands for the external sklearn trainer; sklearn raises a
`ValueError` on an empty feature matrix or empty target, and numpy fancy
indexing demands one importance per feature. -/
def plot_feature_importance
    (fitImp : Nat → List (List Rat) → List Rat → List Rat)
    (v : PostprocessVisualizer) (target : String) :
    PostprocessVisualizer × Except PdError Render :=
  (v,
    match v.data.find? target with
    | none => .error (.keyError target)
    | some tc =>
      let X := v.data.dropCol target
      if X.cols = [] then
        .error (.valueError "found array with 0 feature(s)")
      else if tc.values.length = 0 then
        .error (.valueError "found array with 0 sample(s)")
      else
        let y := tc.rats
        let importances := fitImp 100 (X.cols.map Column.rats) y
        if importances.length = X.cols.length then
          let sorted_idx := argsortAsc importances
          .ok (Render.barh
            (sorted_idx.map (fun i => X.names.getD i ""))
            (sorted_idx.map (fun i => importances.getD i 0))
            "Feature Importance")
        else
          .error (.valueError "indices are out-of-bounds"))

end PostprocessVisualizer

/-! ### Concrete datasets used in witnesses and counterexamples -/

/-- A dataset with numeric columns `A`, `B` and categorical column `C`. -/
def dfABC : DataFrame :=
  ⟨[⟨"A", .int64, [.vint 1, .vint 2]⟩,
    ⟨"B", .float64, [.vfloat 3, .vfloat 5]⟩,
    ⟨"C", .object, [.vstr "x", .vstr "y"]⟩]⟩

/-- A dataset whose single numeric column is constant. -/
def dfConst : DataFrame :=
  ⟨[⟨"a", .int64, [.vint 1, .vint 1]⟩]⟩

/-- A dataset with no columns at all (`pd.DataFrame()`). -/
def dfEmpty : DataFrame := ⟨[]⟩

/-! ### C4: which columns the distribution views process -/

/-- **C4.** `plot_numeric_distribution` renders one `histplot` with `kde`,
titled with the column name, for exactly the integer- or float-typed columns,
and `plot_categorical_distribution` one `countplot` for exactly the
`object`-typed columns; on a dataset with numeric columns `{A, B}` and
categorical column `{C}`, the numeric view processes exactly `A, B` and
the categorical view exactly `C`. -/
theorem c4_distribution_views :
    (∀ v : PreprocessVisualizer,
      v.plot_numeric_distribution.2 =
        (v.data.cols.filter
          (fun c => c.dtype = Dtype.int64 ∨ c.dtype = Dtype.float64)).map
          (fun c => Render.histplot c.name c.values true
            ("Distribution of " ++ c.name)) ∧
      v.plot_categorical_distribution.2 =
        (v.data.cols.filter (fun c => c.dtype = Dtype.object)).map
          (fun c => Render.countplot c.name
            ("Distribution of " ++ c.name) 45)) ∧
    (PreprocessVisualizer.mk dfABC).plot_numeric_distribution.2 =
      [Render.histplot "A" [.vint 1, .vint 2] true "Distribution of A",
       Render.histplot "B" [.vfloat 3, .vfloat 5] true "Distribution of B"] ∧
    (PreprocessVisualizer.mk dfABC).plot_categorical_distribution.2 =
      [Render.countplot "C" "Distribution of C" 45] := by
  refine ⟨fun v => ⟨?_, ?_⟩, rfl, rfl⟩
  · simp only [PreprocessVisualizer.plot_numeric_distribution,
      DataFrame.select_dtypes]
    congr 1
    apply List.filter_congr
    intro c _
    simp
  · simp only [PreprocessVisualizer.plot_categorical_distribution,
      DataFrame.select_dtypes]
    congr 1
    apply List.filter_congr
    intro c _
    simp

/-! ### C9: the two heatmap methods agree -/

/-- **C9.** `PostprocessVisualizer.plot_heatmap` issues exactly the
rendering call of `PreprocessVisualizer.plot_heatmap` on the same dataset:
the annotated, zero-centred `"coolwarm"` heatmap of the dataset's own
correlation matrix. -/
theorem c9_heatmap_contracts_identical (df : DataFrame) :
    (PreprocessVisualizer.mk df).plot_heatmap.2 =
      (PostprocessVisualizer.mk df).plot_heatmap.2 ∧
    (PreprocessVisualizer.mk df).plot_heatmap.2 =
      Render.heatmap df.corrMatrix true "coolwarm" true
        "Correlation Heatmap" :=
  ⟨rfl, rfl⟩

/-! ### C7: no method mutates the stored dataset -/

/-- **C7.** Every operation of both visualizers leaves the component state
(the stored dataset) exactly as it was; in particular
`plot_feature_importance` builds its feature matrix from a new frame
(`drop` without `inplace`) and the stored dataset survives unchanged. -/
theorem c7_dataset_never_mutated
    (u : PreprocessVisualizer) (v : PostprocessVisualizer)
    (a b t : String)
    (fitImp : Nat → List (List Rat) → List Rat → List Rat) :
    u.plot_numeric_distribution.1 = u ∧
    u.plot_categorical_distribution.1 = u ∧
    (u.plot_channel_category_counts a b).1 = u ∧
    u.plot_heatmap.1 = u ∧
    v.plot_heatmap.1 = v ∧
    (v.plot_correlation_analysis t).1 = v ∧
    (v.plot_scatterplots t).1 = v ∧
    (v.plot_feature_importance fitImp t).1 = v :=
  ⟨rfl, rfl, rfl, rfl, rfl, rfl, rfl, rfl⟩

/-! ### Helper lemmas about the embedded operations -/

theorem scatterLoop_ok_of_forall (df : DataFrame) (target : String)
    (l : List String)
    (h : ∀ f ∈ l, PostprocessVisualizer.scatterOne df f target =
      .ok (Render.scatterplot f target (f ++ " vs. " ++ target))) :
    PostprocessVisualizer.scatterLoop df target l =
      .ok (l.map (fun f =>
        Render.scatterplot f target (f ++ " vs. " ++ target))) := by
  induction l with
  | nil => rfl
  | cons a t ih =>
    have ha := h a (List.mem_cons_self a t)
    have ht := ih (fun x hx => h x (List.mem_cons_of_mem a hx))
    simp [PostprocessVisualizer.scatterLoop, ha, ht]

theorem find?_isSome_of_mem_names (df : DataFrame) (n : String)
    (h : n ∈ df.names) : ∃ c, df.find? n = some c := by
  have : (df.cols.find? (fun c => c.name == n)).isSome := by
    rw [List.find?_isSome]
    obtain ⟨c, hc, hn⟩ := List.mem_map.mp h
    exact ⟨c, hc, by simp [hn]⟩
  obtain ⟨c, hc⟩ := Option.isSome_iff_exists.mp this
  exact ⟨c, hc⟩

theorem find?_eq_none_of_not_mem_names (df : DataFrame) (n : String)
    (h : n ∉ df.names) : df.find? n = none := by
  rw [DataFrame.find?, List.find?_eq_none]
  intro c hc
  simp only [beq_iff_eq]
  intro hn
  exact h (hn ▸ List.mem_map_of_mem Column.name hc)

theorem count_beq_bridge (p : Value × Value) (l : List (Value × Value)) :
    @List.count (Value × Value) instBEqProd p l =
      @List.count (Value × Value) instBEqOfDecidableEq p l := by
  induction l with
  | nil => rfl
  | cons a t ih =>
    simp only [List.count_cons, ih, beq_iff_eq]
    by_cases h : a = p <;> simp [h, instBEqOfDecidableEq, BEq.beq]

theorem unstackCounts_total (ca cb : Column) :
    (unstackCounts ca cb).total = (groupKeys ca cb).length := by
  unfold unstackCounts PivotTable.total
  set keys := groupKeys ca cb with hkeys
  set rks := (keys.map Prod.fst).dedup with hrks
  set cks := (keys.map Prod.snd).dedup with hcks
  simp only [List.map_map, Function.comp]
  have hcell : ∀ r c,
      ((if (r, c) ∈ keys then some (keys.count (r, c)) else none).getD 0) =
        keys.count (r, c) := by
    intro r c
    split
    · rfl
    · exact (List.count_eq_zero.mpr (by assumption)).symm
  calc (rks.map (fun r =>
          ((cks.map (fun c =>
            if (r, c) ∈ keys then some (keys.count (r, c)) else none)).map
              (fun o => o.getD 0)).sum)).sum
      = (rks.map (fun r => (cks.map (fun c => keys.count (r, c))).sum)).sum := by
        apply congrArg List.sum
        apply List.map_congr_left
        intro r _
        apply congrArg List.sum
        rw [List.map_map]
        apply List.map_congr_left
        intro c _
        exact hcell r c
    _ = ∑ r ∈ rks.toFinset, ∑ c ∈ cks.toFinset, keys.count (r, c) := by
        rw [← List.sum_toFinset _ (List.nodup_dedup _)]
        apply Finset.sum_congr rfl
        intro r _
        rw [← List.sum_toFinset _ (List.nodup_dedup _)]
    _ = ∑ p ∈ rks.toFinset ×ˢ cks.toFinset, keys.count p := by
        rw [Finset.sum_product]
    _ = ∑ p ∈ keys.toFinset, keys.count p := by
        apply (Finset.sum_subset ?_ ?_).symm
        · intro p hp
          have hpk : p ∈ keys := List.mem_toFinset.mp hp
          apply Finset.mem_product.mpr
          constructor
          · exact List.mem_toFinset.mpr (List.mem_dedup.mpr
              (List.mem_map_of_mem Prod.fst hpk))
          · exact List.mem_toFinset.mpr (List.mem_dedup.mpr
              (List.mem_map_of_mem Prod.snd hpk))
        · intro p _ hp
          exact List.count_eq_zero.mpr (fun hk => hp (List.mem_toFinset.mpr hk))
    _ = ∑ p ∈ keys.toFinset,
          @List.count (Value × Value) instBEqOfDecidableEq p keys :=
        Finset.sum_congr rfl (fun p _ => count_beq_bridge p keys)
    _ = keys.length := List.sum_toFinset_count_eq_length keys

theorem sxy_comm (xs ys : List Rat) : sxy xs ys = sxy ys xs := by
  unfold sxy
  rw [List.zipWith_comm]
  have hfun : (fun (y : Rat) (x : Rat) => (x - meanQ xs) * (y - meanQ ys)) =
      (fun (y : Rat) (x : Rat) => (y - meanQ ys) * (x - meanQ xs)) := by
    funext y x
    ring
  rw [hfun]

theorem sxy_self_nonneg (xs : List Rat) : 0 ≤ sxy xs xs := by
  unfold sxy
  rw [List.zipWith_same]
  apply List.sum_nonneg
  intro q hq
  obtain ⟨x, _, rfl⟩ := List.mem_map.mp hq
  exact mul_self_nonneg _

theorem corr_comm (xs ys : List Rat) : corr xs ys = corr ys xs := by
  unfold corr
  by_cases h : sxy xs xs = 0 ∨ sxy ys ys = 0
  · rw [if_pos h, if_pos (Or.symm h)]
  · rw [if_neg h, if_neg (fun h2 => h (Or.symm h2)), sxy_comm xs ys, mul_comm]

theorem corr_self (xs : List Rat) (h : sxy xs xs ≠ 0) :
    corr xs xs = some 1 := by
  unfold corr
  rw [if_neg (by simpa using h)]
  have hpos : (0 : ℝ) ≤ (sxy xs xs : Rat) := by
    exact_mod_cast sxy_self_nonneg xs
  rw [Real.mul_self_sqrt hpos, div_self (by exact_mod_cast h)]

theorem find?_map_key {α β : Type} (key : α → String) (f : α → β)
    (l : List α) (x : String) :
    ((l.map (fun c => (key c, f c))).find? (fun p => p.1 == x)) =
      (l.find? (fun c => key c == x)).map (fun c => (key c, f c)) := by
  induction l with
  | nil => rfl
  | cons a t ih =>
    by_cases h : (key a == x) = true
    · simp only [List.map_cons]
      rw [show ((key a, f a) :: t.map (fun c => (key c, f c))).find?
            (fun p => p.1 == x) = some (key a, f a) from
          List.find?_cons_of_pos _ (by simpa using h),
        show (a :: t).find? (fun c => key c == x) = some a from
          List.find?_cons_of_pos _ h]
      rfl
    · simp only [List.map_cons]
      rw [show ((key a, f a) :: t.map (fun c => (key c, f c))).find?
            (fun p => p.1 == x) =
            (t.map (fun c => (key c, f c))).find? (fun p => p.1 == x) from
          List.find?_cons_of_neg _ (by simpa using h),
        show (a :: t).find? (fun c => key c == x) =
            t.find? (fun c => key c == x) from
          List.find?_cons_of_neg _ h]
      exact ih

theorem lookup₂_corrMatrix (df : DataFrame) (i j : String) :
    lookup₂ df.corrMatrix i j =
      match df.numericCols.find? (fun c => c.name == i),
            df.numericCols.find? (fun c => c.name == j) with
      | some ci, some cj => some (corr ci.rats cj.rats)
      | none, _ => none
      | some _, none => none := by
  unfold lookup₂ DataFrame.corrMatrix
  rw [find?_map_key Column.name
    (fun ci => df.numericCols.map (fun cj => (cj.name, corr ci.rats cj.rats)))]
  cases hci : df.numericCols.find? (fun c => c.name == i) with
  | none => rfl
  | some ci =>
    simp only [Option.map_some']
    rw [find?_map_key Column.name (fun cj => corr ci.rats cj.rats)]
    cases hcj : df.numericCols.find? (fun c => c.name == j) with
    | none => rfl
    | some cj => rfl

/-! ### C3: heatmap matrix is the dataset's Pearson correlation matrix -/

/-- **C3 counterexample.** The claim "that matrix is … with 1.0 on the
diagonal" fails on a dataset whose numeric column `a` is constant: pandas
produces `NaN` (the centred sum of squares is 0, so the correlation
divides by zero), so the diagonal entry at `a` is `NaN`, not 1.0. -/
theorem c3_counterexample_constant_column :
    lookup₂ dfConst.corrMatrix "a" "a" = some none ∧
    lookup₂ dfConst.corrMatrix "a" "a" ≠ some (some 1) ∧
    dfConst.numericCols.map Column.name = ["a"] := by
  have hs : sxy (Column.mk "a" .int64 [.vint 1, .vint 1]).rats
      (Column.mk "a" .int64 [.vint 1, .vint 1]).rats = 0 := by
    norm_num [sxy, meanQ, Column.rats, Value.toRat, List.zipWith]
  have h : lookup₂ dfConst.corrMatrix "a" "a" = some none := by
    rw [lookup₂_corrMatrix]
    have hfind : dfConst.numericCols.find? (fun c => c.name == "a") =
        some ⟨"a", .int64, [.vint 1, .vint 1]⟩ := by rfl
    rw [hfind]
    show some (corr _ _) = some none
    rw [corr, if_pos (Or.inl hs)]
  exact ⟨h, by rw [h]; simp, by decide⟩

/-- **C3 (amended).** `plot_heatmap` renders exactly the dataset's own
pairwise Pearson correlation matrix over the numeric columns; that matrix
is symmetric, and its diagonal entry at any numeric column whose centred
sum of squares is nonzero (i.e. any non-constant column) is exactly 1;
a constant column instead yields `NaN` on the diagonal. -/
theorem c3_heatmap_is_correlation_matrix (df : DataFrame) :
    (PreprocessVisualizer.mk df).plot_heatmap.2 =
      Render.heatmap df.corrMatrix true "coolwarm" true
        "Correlation Heatmap" ∧
    (∀ i j, lookup₂ df.corrMatrix i j = lookup₂ df.corrMatrix j i) ∧
    (∀ i ci, df.numericCols.find? (fun c => c.name == i) = some ci →
      sxy ci.rats ci.rats ≠ 0 →
      lookup₂ df.corrMatrix i i = some (some 1)) := by
  refine ⟨rfl, ?_, ?_⟩
  · intro i j
    rw [lookup₂_corrMatrix, lookup₂_corrMatrix]
    cases hci : df.numericCols.find? (fun c => c.name == i) with
    | none =>
      cases hcj : df.numericCols.find? (fun c => c.name == j) <;> rfl
    | some ci =>
      cases hcj : df.numericCols.find? (fun c => c.name == j) with
      | none => rfl
      | some cj => simp only [corr_comm ci.rats cj.rats]
  · intro i ci hci hvar
    rw [lookup₂_corrMatrix, hci]
    show some (corr ci.rats ci.rats) = some (some 1)
    rw [corr_self ci.rats hvar]

/-- Witness for **C3 (amended)** on `dfABC`: the diagonal entry at the
non-constant numeric column `A` is exactly 1, and the `(A, B)` and
`(B, A)` entries coincide. -/
theorem c3_heatmap_is_correlation_matrix_witness :
    lookup₂ dfABC.corrMatrix "A" "A" = some (some 1) ∧
    lookup₂ dfABC.corrMatrix "A" "B" = lookup₂ dfABC.corrMatrix "B" "A" :=
  ⟨(c3_heatmap_is_correlation_matrix dfABC).2.2 "A"
      ⟨"A", .int64, [.vint 1, .vint 2]⟩ rfl
      (by norm_num [sxy, meanQ, Column.rats, Value.toRat, List.zipWith]),
   (c3_heatmap_is_correlation_matrix dfABC).2.1 "A" "B"⟩

/-! ### C1: two-way grouping count table totals the row count -/

/-- **C1.** When both grouping columns exist, `plot_channel_category_counts`
groups the rows by the pair, counts occurrences and pivots the second key
into columns; the resulting count table totals exactly the number of rows
of the (rectangular) dataset, and the rendered grouped bar chart carries
that table. -/
theorem c1_grouped_count_total (v : PreprocessVisualizer) (a b : String)
    (ca cb : Column) (hrect : v.data.Rect)
    (hca : v.data.find? a = some ca) (hcb : v.data.find? b = some cb) :
    (unstackCounts ca cb).total = v.data.nrows ∧
    ((unstackCounts ca cb).rows ≠ [] →
      (v.plot_channel_category_counts a b).2 =
        .ok (Render.groupedBar (unstackCounts ca cb)
          ("Distribution of " ++ b ++ " by " ++ a) 45)) := by
  have hmema : ca ∈ v.data.cols := List.mem_of_find?_eq_some hca
  have hmemb : cb ∈ v.data.cols := List.mem_of_find?_eq_some hcb
  have hla : ca.values.length = v.data.nrows := hrect ca hmema
  have hlb : cb.values.length = v.data.nrows := hrect cb hmemb
  constructor
  · rw [unstackCounts_total, groupKeys, List.length_zip, hla, hlb,
      Nat.min_self]
  · intro hne
    simp [PreprocessVisualizer.plot_channel_category_counts, hca, hcb, hne]

/-- Witness for **C1**: on `dfABC`, grouping by `A` and `C` yields a count
table totalling the 2 rows of the dataset, and the grouped bar chart is
rendered from that table. -/
theorem c1_grouped_count_total_witness :
    (unstackCounts ⟨"A", .int64, [.vint 1, .vint 2]⟩
      ⟨"C", .object, [.vstr "x", .vstr "y"]⟩).total = dfABC.nrows ∧
    ((PreprocessVisualizer.mk dfABC).plot_channel_category_counts "A" "C").2 =
      .ok (Render.groupedBar
        (unstackCounts ⟨"A", .int64, [.vint 1, .vint 2]⟩
          ⟨"C", .object, [.vstr "x", .vstr "y"]⟩)
        "Distribution of C by A" 45) :=
  ⟨(c1_grouped_count_total (.mk dfABC) "A" "C" _ _ (by decide) rfl rfl).1,
   (c1_grouped_count_total (.mk dfABC) "A" "C" _ _ (by decide) rfl rfl).2
     (by decide)⟩

/-! ### C10: per-feature scatter view -/

/-- **C10.** `plot_scatterplots` renders exactly one scatter chart per
column other than the target, in the dataset's column order, whenever the
target is present; when the target is the only column the feature list is
empty, so the call silently completes with zero charts and no error. -/
theorem c10_scatterplots_per_feature (v : PostprocessVisualizer)
    (target : String) :
    (target ∈ v.data.names →
      (v.plot_scatterplots target).2 =
        .ok ((v.data.names.filter (fun c => c ≠ target)).map
          (fun f => Render.scatterplot f target (f ++ " vs. " ++ target)))) ∧
    (v.data.names = [target] → (v.plot_scatterplots target).2 = .ok []) := by
  constructor
  · intro ht
    obtain ⟨ct, hct⟩ := find?_isSome_of_mem_names v.data target ht
    unfold PostprocessVisualizer.plot_scatterplots
    apply scatterLoop_ok_of_forall
    intro f hf
    have hfmem : f ∈ v.data.names := List.mem_of_mem_filter hf
    obtain ⟨cf, hcf⟩ := find?_isSome_of_mem_names v.data f hfmem
    simp [PostprocessVisualizer.scatterOne, hcf, hct]
  · intro hone
    unfold PostprocessVisualizer.plot_scatterplots
    rw [hone]
    simp [PostprocessVisualizer.scatterLoop]

/-- Witness for **C10** at concrete datasets: a single-column dataset whose
column is the target yields zero charts and no error, and a three-column
dataset with target `A` yields scatters of `B` and `C` against `A` in
column order. -/
theorem c10_scatterplots_per_feature_witness :
    ((PostprocessVisualizer.mk ⟨[⟨"t", .int64, [.vint 1]⟩]⟩).plot_scatterplots
        "t").2 = .ok [] ∧
    ((PostprocessVisualizer.mk dfABC).plot_scatterplots "A").2 =
      .ok [Render.scatterplot "B" "A" "B vs. A",
           Render.scatterplot "C" "A" "C vs. A"] := by
  constructor
  · exact (c10_scatterplots_per_feature _ "t").2 rfl
  · rw [(c10_scatterplots_per_feature (PostprocessVisualizer.mk dfABC) "A").1
      (by decide)]
    rfl

/-! ### C6: absent column names raise the library's error -/

/-- **C6 counterexample.** The claim "requesting … the scatter view with a
column name absent from the dataset raises an error" fails on the
column-free dataset `pd.DataFrame()`: the feature list is empty, so the
loop never reaches seaborn and the call returns zero charts with no
error, even though the requested target is absent. -/
theorem c6_counterexample_empty_frame_scatter :
    ((PostprocessVisualizer.mk dfEmpty).plot_scatterplots "x").2 = .ok [] ∧
    "x" ∉ dfEmpty.names := by
  exact ⟨rfl, by decide⟩

/-- **C6 (amended).** Requesting the two-way grouping view or the
correlation-to-target ranking with a column name absent from the dataset
always raises the underlying library's error (`KeyError`), and so does the
scatter view provided the dataset has at least one column; no handler
intervenes, so the error reaches the caller as produced. -/
theorem c6_absent_column_raises (u : PreprocessVisualizer)
    (v : PostprocessVisualizer) (a b t : String) :
    (a ∉ u.data.names →
      (u.plot_channel_category_counts a b).2 = .error (.keyError a)) ∧
    (a ∈ u.data.names → b ∉ u.data.names →
      (u.plot_channel_category_counts a b).2 = .error (.keyError b)) ∧
    (t ∉ v.data.names →
      (v.plot_correlation_analysis t).2 = .error (.keyError t)) ∧
    (t ∉ v.data.names → v.data.names ≠ [] →
      (v.plot_scatterplots t).2 =
        .error (.valueError ("Could not interpret value " ++ t))) := by
  refine ⟨?_, ?_, ?_, ?_⟩
  · intro ha
    have h1 := find?_eq_none_of_not_mem_names u.data a ha
    simp [PreprocessVisualizer.plot_channel_category_counts, h1]
  · intro ha hb
    obtain ⟨ca, hca⟩ := find?_isSome_of_mem_names u.data a ha
    have h2 := find?_eq_none_of_not_mem_names u.data b hb
    simp [PreprocessVisualizer.plot_channel_category_counts, hca, h2]
  · intro ht
    have hnone : v.data.numericCols.find? (fun c => c.name == t) = none := by
      rw [List.find?_eq_none]
      intro c hc
      simp only [beq_iff_eq]
      intro hn
      exact ht (hn ▸ List.mem_map_of_mem Column.name
        (List.mem_of_mem_filter hc))
    simp [PostprocessVisualizer.plot_correlation_analysis, hnone]
  · intro ht hne
    have hfilter : v.data.names.filter (fun c => c ≠ t) = v.data.names := by
      rw [List.filter_eq_self]
      intro x hx
      simp only [decide_eq_true_eq]
      intro hxt
      exact ht (hxt ▸ hx)
    unfold PostprocessVisualizer.plot_scatterplots
    rw [hfilter]
    obtain ⟨f, fs, hcons⟩ := List.exists_cons_of_ne_nil hne
    rw [hcons]
    have hf : f ∈ v.data.names := by rw [hcons]; exact List.mem_cons_self f fs
    obtain ⟨cf, hcf⟩ := find?_isSome_of_mem_names v.data f hf
    have hct := find?_eq_none_of_not_mem_names v.data t ht
    simp [PostprocessVisualizer.scatterLoop, PostprocessVisualizer.scatterOne,
      hcf, hct]

theorem corrDescLe_total (a b : String × Option ℝ) :
    corrDescLe a b || corrDescLe b a := by
  rcases a with ⟨na, _ | x⟩ <;> rcases b with ⟨nb, _ | y⟩ <;>
    simp only [corrDescLe, Bool.or_eq_true, decide_eq_true_eq]
  · exact Or.inl trivial
  · exact Or.inr trivial
  · exact Or.inl trivial
  · exact le_total y x

theorem corrDescLe_trans (a b c : String × Option ℝ) :
    corrDescLe a b → corrDescLe b c → corrDescLe a c := by
  rcases a with ⟨na, oa⟩
  rcases b with ⟨nb, ob⟩
  rcases c with ⟨nc, oc⟩
  cases oc with
  | none => intro _ _; simp [corrDescLe]
  | some z =>
    cases ob with
    | none => intro _ h2; exact absurd h2 (by simp [corrDescLe])
    | some y =>
      cases oa with
      | none => intro h1 _; exact absurd h1 (by simp [corrDescLe])
      | some x =>
        intro h1 h2
        simp only [corrDescLe, decide_eq_true_eq] at h1 h2 ⊢
        exact le_trans h2 h1

theorem sortValuesDesc_sorted (s : List (String × Option ℝ)) :
    (sortValuesDesc s).Pairwise (fun a b => corrDescLe a b = true) :=
  List.sorted_mergeSort corrDescLe_trans
    (fun a b => corrDescLe_total a b) s

theorem sortValuesDesc_perm (s : List (String × Option ℝ)) :
    (sortValuesDesc s).Perm s :=
  List.mergeSort_perm s corrDescLe

/-! ### C2: correlation-to-target ranking -/

/-- **C2.** When the target names a numeric column, the ranking rendered
by `plot_correlation_analysis` is the correlation series sorted descending
by correlation value (`NaN` entries, ordered below every value, last) and
its index contains every numeric column other than the target exactly
once; when the target is absent from the dataset or not numeric, the call
fails with pandas' `KeyError`. -/
theorem c2_correlation_ranking (v : PostprocessVisualizer) (target : String)
    (hnd : v.data.names.Nodup) :
    (∀ tc, v.data.numericCols.find? (fun c => c.name == target) = some tc →
      (v.plot_correlation_analysis target).2 =
        .ok (Render.barplot (sortValuesDesc (corrSeries v.data tc))
          ("Correlation with " ++ target) 45) ∧
      (sortValuesDesc (corrSeries v.data tc)).Pairwise
        (fun a b => corrDescLe a b = true) ∧
      (∀ c ∈ v.data.numericCols, c.name ≠ target →
        (((sortValuesDesc (corrSeries v.data tc)).map Prod.fst).count
          c.name) = 1)) ∧
    (v.data.numericCols.find? (fun c => c.name == target) = none →
      (v.plot_correlation_analysis target).2 = .error (.keyError target)) := by
  constructor
  · intro tc hfind
    refine ⟨?_, sortValuesDesc_sorted _, ?_⟩
    · simp [PostprocessVisualizer.plot_correlation_analysis, hfind]
    · intro c hc _
      have hperm : ((sortValuesDesc (corrSeries v.data tc)).map Prod.fst).Perm
          ((corrSeries v.data tc).map Prod.fst) :=
        (sortValuesDesc_perm _).map Prod.fst
      rw [hperm.count_eq]
      have hfst : (corrSeries v.data tc).map Prod.fst =
          v.data.numericCols.map Column.name := by
        unfold corrSeries
        rw [List.map_map]
        rfl
      rw [hfst]
      have hsub : List.Sublist (v.data.numericCols.map Column.name)
          v.data.names :=
        (List.filter_sublist _).map Column.name
      have hnodup : (v.data.numericCols.map Column.name).Nodup :=
        hnd.sublist hsub
      exact List.count_eq_one_of_mem hnodup
        (List.mem_map_of_mem Column.name hc)
  · intro hfind
    simp [PostprocessVisualizer.plot_correlation_analysis, hfind]

theorem argsortAsc_sorted (xs : List Rat) :
    (argsortAsc xs).Pairwise (fun i j => xs.getD i 0 ≤ xs.getD j 0) := by
  have h := @List.sorted_mergeSort Nat
    (fun i j => decide (xs.getD i 0 ≤ xs.getD j 0))
    (fun a b c h1 h2 => by
      simp only [decide_eq_true_eq] at h1 h2 ⊢
      exact le_trans h1 h2)
    (fun a b => by
      simp only [Bool.or_eq_true, decide_eq_true_eq]
      exact le_total _ _)
    (List.range xs.length)
  exact h.imp (fun hab => of_decide_eq_true hab)

theorem argsortAsc_perm (xs : List Rat) :
    (argsortAsc xs).Perm (List.range xs.length) :=
  List.mergeSort_perm _ _

theorem range_map_getD_zip {α β : Type} (da : α) (db : β) :
    ∀ (as : List α) (bs : List β), as.length = bs.length →
      (List.range as.length).map (fun i => (as.getD i da, bs.getD i db)) =
        as.zip bs
  | [], [], _ => rfl
  | [], _ :: _, h => by simp at h
  | _ :: _, [], h => by simp at h
  | a :: as, b :: bs, h => by
    rw [List.length_cons, List.range_succ_eq_map, List.map_cons,
      List.map_map, List.zip_cons_cons]
    congr 1
    rw [← range_map_getD_zip da db as bs (by simpa using h)]
    apply List.map_congr_left
    intro i _
    rfl

/-! ### C5: feature importance view -/

/-- **C5.** On the success path, `plot_feature_importance` drops the
target column (keeping all other columns in order) to form the feature
matrix `X`, takes the stored target column as `y`, obtains the
importances of a freshly fitted 100-tree forest on all of `(X, y)`, and
draws a horizontal bar chart of the features in ascending order of
importance: the plotted widths are sorted ascending, and the plotted
(label, width) pairs are a permutation of the features paired with their
own importances.  The output depends on the trainer only through the
single fresh fit `fitImp 100 X y` — there is no cache to consult. -/
theorem c5_feature_importance (v : PostprocessVisualizer) (target : String)
    (fitImp : Nat → List (List Rat) → List Rat → List Rat) (tc : Column)
    (X : DataFrame) (imps : List Rat)
    (hXeq : X = v.data.dropCol target)
    (himps : imps = fitImp 100 (X.cols.map Column.rats) tc.rats)
    (hfind : v.data.find? target = some tc)
    (hX : X.cols ≠ [])
    (hy : tc.values.length ≠ 0)
    (hlen : imps.length = X.cols.length) :
    X.names = v.data.names.filter (fun n => n ≠ target) ∧
    (v.plot_feature_importance fitImp target).2 =
      .ok (Render.barh
        ((argsortAsc imps).map (fun i => X.names.getD i ""))
        ((argsortAsc imps).map (fun i => imps.getD i 0))
        "Feature Importance") ∧
    ((argsortAsc imps).map (fun i => imps.getD i 0)).Pairwise (· ≤ ·) ∧
    (((argsortAsc imps).map (fun i => X.names.getD i "")).zip
        ((argsortAsc imps).map (fun i => imps.getD i 0)) =
      (argsortAsc imps).map (fun i => (X.names.getD i "", imps.getD i 0))) ∧
    ((argsortAsc imps).map
        (fun i => (X.names.getD i "", imps.getD i 0))).Perm
      (X.names.zip imps) ∧
    (∀ g : Nat → List (List Rat) → List Rat → List Rat,
      g 100 (X.cols.map Column.rats) tc.rats = imps →
      (v.plot_feature_importance g target).2 =
        (v.plot_feature_importance fitImp target).2) := by
  subst hXeq
  refine ⟨?_, ?_, ?_, ?_, ?_, ?_⟩
  · unfold DataFrame.dropCol DataFrame.names
    rw [List.filter_map]
    rfl
  · simp [PostprocessVisualizer.plot_feature_importance, hfind, hX, hy,
      ← himps, hlen]
  · exact (argsortAsc_sorted imps).map _ (fun i j hij => hij)
  · exact List.zip_map' _ _ _
  · have hperm := (argsortAsc_perm imps).map
      (fun i => ((v.data.dropCol target).names.getD i "", imps.getD i 0))
    refine hperm.trans ?_
    rw [hlen]
    have hnlen : (v.data.dropCol target).cols.length =
        (v.data.dropCol target).names.length := by
      unfold DataFrame.names
      rw [List.length_map]
    rw [hnlen,
      range_map_getD_zip "" (0 : ℚ) (v.data.dropCol target).names imps
        (by rw [← hnlen, ← hlen])]
  · intro g hg
    simp [PostprocessVisualizer.plot_feature_importance, hfind, hX, hy,
      hg, ← himps, hlen]

/-- Witness for **C5**: on `dfABC` with target `C` and a trainer returning
importances `[2, 1]`, the bar chart lists the features of `X = {A, B}` in
ascending importance order with sorted widths. -/
theorem c5_feature_importance_witness :
    ((PostprocessVisualizer.mk dfABC).plot_feature_importance
        (fun _ _ _ => [2, 1]) "C").2 =
      .ok (Render.barh
        ((argsortAsc [2, 1]).map
          (fun i => (dfABC.dropCol "C").names.getD i ""))
        ((argsortAsc [2, 1]).map (fun i => ([2, 1] : List Rat).getD i 0))
        "Feature Importance") ∧
    ((argsortAsc [2, 1]).map
      (fun i => ([2, 1] : List Rat).getD i 0)).Pairwise (· ≤ ·) := by
  have h := c5_feature_importance (.mk dfABC) "C" (fun _ _ _ => [2, 1])
    ⟨"C", .object, [.vstr "x", .vstr "y"]⟩ (dfABC.dropCol "C") [2, 1]
    rfl rfl rfl (by decide) (by decide) (by decide)
  exact ⟨h.2.1, h.2.2.1⟩

/-- Witness for **C2** on `dfABC`: the ranking against target `A` is
sorted and mentions the other numeric column `B` exactly once, and
requesting the absent target `Z` yields the `KeyError`. -/
theorem c2_correlation_ranking_witness :
    ((PostprocessVisualizer.mk dfABC).plot_correlation_analysis "A").2 =
      .ok (Render.barplot
        (sortValuesDesc (corrSeries dfABC ⟨"A", .int64, [.vint 1, .vint 2]⟩))
        "Correlation with A" 45) ∧
    (((sortValuesDesc
        (corrSeries dfABC ⟨"A", .int64, [.vint 1, .vint 2]⟩)).map
        Prod.fst).count "B") = 1 ∧
    ((PostprocessVisualizer.mk dfABC).plot_correlation_analysis "Z").2 =
      .error (.keyError "Z") := by
  obtain ⟨h1, _, h3⟩ :=
    (c2_correlation_ranking (.mk dfABC) "A" (by decide)).1
      ⟨"A", .int64, [.vint 1, .vint 2]⟩ rfl
  exact ⟨h1,
    h3 ⟨"B", .float64, [.vfloat 3, .vfloat 5]⟩ (by decide) (by decide),
    (c2_correlation_ranking (.mk dfABC) "Z" (by decide)).2 rfl⟩

/-- Witness for **C6 (amended)** at concrete inputs: on `dfABC`, grouping
with missing first key `Z`, grouping with missing second key `Z`, ranking
with missing target `Z`, and scattering with missing target `Z` each
surface the library's error. -/
theorem c6_absent_column_raises_witness :
    ((PreprocessVisualizer.mk dfABC).plot_channel_category_counts "Z" "A").2 =
      .error (.keyError "Z") ∧
    ((PreprocessVisualizer.mk dfABC).plot_channel_category_counts "A" "Z").2 =
      .error (.keyError "Z") ∧
    ((PostprocessVisualizer.mk dfABC).plot_correlation_analysis "Z").2 =
      .error (.keyError "Z") ∧
    ((PostprocessVisualizer.mk dfABC).plot_scatterplots "Z").2 =
      .error (.valueError "Could not interpret value Z") :=
  ⟨(c6_absent_column_raises (.mk dfABC) (.mk dfABC) "Z" "A" "Z").1 (by decide),
   (c6_absent_column_raises (.mk dfABC) (.mk dfABC) "A" "Z" "Z").2.1
     (by decide) (by decide),
   (c6_absent_column_raises (.mk dfABC) (.mk dfABC) "A" "A" "Z").2.2.1
     (by decide),
   (c6_absent_column_raises (.mk dfABC) (.mk dfABC) "A" "A" "Z").2.2.2
     (by decide) (by decide)⟩
